import Mathlib

/-!
Verification development for `solidity_analyzer.py`, a batch analysis runner
that walks a directory tree for `.sol` files, runs two external tools
(`solc` and `slither`) on each, aggregates the per-file results into a
dictionary keyed by `<parts[1]>/<stem>`, and serializes the aggregate to a
JSON report file with 2-space indentation.

The embedding is shallow:
* a discovered path is its list of components (Python `Path.parts`, with the
  leading `./` of the hardcoded base directory already normalized away, as
  `pathlib` does);
* the outcome of a `subprocess.run` call is a value of `SubprocessOutcome`:
  either the process ran (exit code, stdout, stderr) or launching raised an
  exception with a message;
* `json.loads` is an external library function, modelled as a parameter of
  type `String → Except String Json` (success returns the parsed value,
  failure the decode-error message);
* a Python dict is an association list in insertion order; assignment
  `d[k] = v` replaces in place when the key is present and appends otherwise;
* `json.dump(obj, f, indent=2)` is modelled by `dumpJson`, reproducing
  Python's indented serialization (separators `','` and `': '`, ASCII
  escaping);
* the filesystem is a map from path strings to optional contents; opening a
  file with mode `"w"` and dumping replaces the content at that path.
-/

/-- JSON values, the codomain of `json.loads` and the content of the report. -/
inductive Json where
  | null : Json
  | bool (b : Bool) : Json
  | num (n : Int) : Json
  | str (s : String) : Json
  | arr (elems : List Json) : Json
  | obj (fields : List (String × Json)) : Json
deriving Repr

/-- Result of a `subprocess.run(...)` call inside a `try` block: either the
process launched and finished (`ok` with exit code, stdout and stderr), or an
exception was raised while launching (`exn` with the exception's message,
Python `str(e)`). -/
inductive SubprocessOutcome where
  | ok (returncode : Int) (stdout stderr : String) : SubprocessOutcome
  | exn (msg : String) : SubprocessOutcome
deriving Repr

/-- Index of the last occurrence of a character in a list, Python
`str.rfind` restricted to single characters (`none` for not found). -/
def lastIndexOf (c : Char) : List Char → Option Nat
  | [] => none
  | x :: xs =>
    match lastIndexOf c xs with
    | some i => some (i + 1)
    | none => if x = c then some 0 else none

/-- Python `PurePath.stem` applied to a final path component: the component
without its suffix, where the suffix starts at the last dot provided that dot
is neither the first nor the last character. -/
def stem (name : String) : String :=
  match lastIndexOf '.' name.toList with
  | some i =>
    if 0 < i ∧ i < name.toList.length - 1 then String.mk (name.toList.take i) else name
  | none => name

/-- Python `str(path)` for a relative path given by its components. -/
def pathStr (parts : List String) : String := String.intercalate "/" parts

/-- The per-run environment: what each external call would return for a given
path string. `solc` and `slither` give the subprocess outcome of the
respective tool invocation; `loads` is the behavior of `json.loads`. -/
structure ToolEnv where
  solc : String → SubprocessOutcome
  slither : String → SubprocessOutcome
  loads : String → Except String Json

/-- The dict returned by `run_solc_check(sol_file)` given the outcome of its
`subprocess.run(["solc", "--ast-compact-json", "--optimize", sol_file], ...)`
call. On a completed process: `success` is `returncode == 0` and
`solc_output` is stdout on success, stderr on failure. On an exception:
`file`, `success: False` and the exception message under `error`. -/
def run_solc_check (sol_file : String) : SubprocessOutcome → List (String × Json)
  | .ok rc so se =>
    let success : Bool := decide (rc = 0)
    [("file", .str sol_file),
     ("success", .bool success),
     ("solc_output", .str (if success then so else se))]
  | .exn msg =>
    [("file", .str sol_file), ("success", .bool false), ("error", .str msg)]

/-- The dict returned by `run_slither_check(sol_file)` given the outcome of
its `subprocess.run(["slither", sol_file, "--json", "-"], ...)` call and the
behavior of `json.loads`. The Python body computes
`output = result.stdout if result.stdout else result.stderr` and returns
`slither_output = json.loads(output) if output else {}`; a `json.loads`
failure is caught by the same `except` as a launch failure. -/
def run_slither_check (loads : String → Except String Json) (sol_file : String) :
    SubprocessOutcome → List (String × Json)
  | .ok rc so se =>
    let success : Bool := decide (rc = 0)
    let output : String := if so = "" then se else so
    if output = "" then
      [("file", .str sol_file),
       ("success", .bool success),
       ("slither_output", .obj [])]
    else
      match loads output with
      | .ok j =>
        [("file", .str sol_file),
         ("success", .bool success),
         ("slither_output", j)]
      | .error msg =>
        [("file", .str sol_file), ("success", .bool false), ("error", .str msg)]
  | .exn msg =>
    [("file", .str sol_file), ("success", .bool false), ("error", .str msg)]

/-- Python dict assignment `d[k] = v` on an insertion-ordered association
list: replace the value in place when the key is present, append otherwise. -/
def dictInsert (d : List (String × Json)) (k : String) (v : Json) :
    List (String × Json) :=
  if d.any (fun kv => kv.1 == k) then
    d.map (fun kv => if kv.1 == k then (k, v) else kv)
  else
    d ++ [(k, v)]

/-- The keys of a dict, in order. -/
def dkeys (d : List (String × Json)) : List String := d.map Prod.fst

/-- Dict lookup `d.get(k)`: the value at the first matching key, if any. -/
def dget (d : List (String × Json)) (k : String) : Option Json :=
  (d.find? (fun kv => kv.1 == k)).map Prod.snd

/-- The key under which a discovered file's results are stored:
`model = sol_path.parts[1]`, `contract = sol_path.stem`, key
`f"{model}/{contract}"`. -/
def pyKey (sol_path : List String) : String :=
  let model := sol_path.getD 1 ""
  let contract := stem (sol_path.getLastD "")
  model ++ "/" ++ contract

/-- The value stored for a discovered file:
`{"solc": run_solc_check(str(sol_path)), "slither": run_slither_check(str(sol_path))}`. -/
def mkEntry (env : ToolEnv) (sol_path : List String) : Json :=
  .obj [("solc", .obj (run_solc_check (pathStr sol_path) (env.solc (pathStr sol_path)))),
        ("slither", .obj (run_slither_check env.loads (pathStr sol_path)
          (env.slither (pathStr sol_path))))]

/-- One iteration of the loop body of `analyze_all_contracts`: skip paths
with fewer than 3 components, otherwise store both tool results under the
derived key. -/
def analyzeStep (env : ToolEnv) (combined_results : List (String × Json))
    (sol_path : List String) : List (String × Json) :=
  if sol_path.length < 3 then combined_results
  else dictInsert combined_results (pyKey sol_path) (mkEntry env sol_path)

/-- `analyze_all_contracts` up to the point where the aggregate is complete:
fold the loop body over the discovered files (the result of
`Path(BASE_DIR).rglob("*.sol")`, each file given by its components),
starting from the empty dict. -/
def analyze_all_contracts (env : ToolEnv) (files : List (List String)) :
    List (String × Json) :=
  files.foldl (analyzeStep env) []

/-- `indent * level` spaces. -/
def pad (n : Nat) : String := String.mk (List.replicate n ' ')

/-- One hexadecimal digit, lowercase. -/
def hexDigit (n : Nat) : Char :=
  if n < 10 then Char.ofNat (48 + n) else Char.ofNat (87 + n)

/-- Four lowercase hexadecimal digits. -/
def hex4 (n : Nat) : String :=
  String.mk [hexDigit (n / 4096 % 16), hexDigit (n / 256 % 16),
             hexDigit (n / 16 % 16), hexDigit (n % 16)]

/-- Python `json` ASCII escaping of one character: the two-character escapes
for quote, backslash and common control characters, `\uXXXX` (with surrogate
pairs above the BMP) for every other character outside `0x20`-`0x7e`, and the
character itself otherwise. -/
def escChar (c : Char) : String :=
  if c = '"' then "\\\""
  else if c = '\\' then "\\\\"
  else if c = '\n' then "\\n"
  else if c = '\t' then "\\t"
  else if c = '\r' then "\\r"
  else if c.toNat = 8 then "\\b"
  else if c.toNat = 12 then "\\f"
  else if c.toNat < 32 ∨ 126 < c.toNat then
    if c.toNat < 65536 then "\\u" ++ hex4 c.toNat
    else
      let v := c.toNat - 65536
      "\\u" ++ hex4 (55296 + v / 1024) ++ "\\u" ++ hex4 (56320 + v % 1024)
  else String.mk [c]

/-- Python `json` serialization of a string, with quotes and escapes. -/
def escStr (s : String) : String :=
  "\"" ++ String.join (s.toList.map escChar) ++ "\""

mutual

/-- Python `json.dump(x, f, indent=ind)` serialization of a value at nesting
level `lvl`: items of non-empty containers each on their own line, indented
by `ind * (lvl+1)` spaces, separated by `\",\\n\"`, keys separated from values
by `\": \"`; empty containers as `{}` and `[]`. -/
def dumpJson (ind : Nat) : Json → Nat → String
  | .null, _ => "null"
  | .bool b, _ => if b then "true" else "false"
  | .num n, _ => toString n
  | .str s, _ => escStr s
  | .arr [], _ => "[]"
  | .arr (x :: xs), lvl =>
    "[\n" ++ dumpItems ind (x :: xs) (lvl + 1) ++ "\n" ++ pad (ind * lvl) ++ "]"
  | .obj [], _ => "{}"
  | .obj (f :: fl), lvl =>
    "\x7b\n" ++ dumpFields ind (f :: fl) (lvl + 1) ++ "\n" ++ pad (ind * lvl) ++ "\x7d"

/-- The comma-and-newline separated items of a non-empty array. -/
def dumpItems (ind : Nat) : List Json → Nat → String
  | [], _ => ""
  | [x], lvl => pad (ind * lvl) ++ dumpJson ind x lvl
  | x :: y :: xs, lvl =>
    pad (ind * lvl) ++ dumpJson ind x lvl ++ ",\n" ++ dumpItems ind (y :: xs) lvl

/-- The comma-and-newline separated `key: value` fields of a non-empty
object. -/
def dumpFields (ind : Nat) : List (String × Json) → Nat → String
  | [], _ => ""
  | [(k, v)], lvl => pad (ind * lvl) ++ escStr k ++ ": " ++ dumpJson ind v lvl
  | (k, v) :: g :: fl, lvl =>
    pad (ind * lvl) ++ escStr k ++ ": " ++ dumpJson ind v lvl ++ ",\n" ++
      dumpFields ind (g :: fl) lvl

end

/-- `str(REPORT_FILE)`: `Path("./analysis_reports") / "full_analysis_report.json"`. -/
def REPORT_FILE : String := "analysis_reports/full_analysis_report.json"

/-- Writing `content` to `path` on a filesystem modelled as a map from path
strings to optional contents: mode `"w"` truncates, so the previous content
at `path` is discarded entirely. -/
def writeFile (fs : String → Option String) (path content : String) :
    String → Option String :=
  fun q => if q = path then some content else fs q

/-- One full run of `analyze_all_contracts` as a filesystem transformer:
build the aggregate, then `json.dump(combined_results, f, indent=2)` into the
report file opened with mode `"w"`. -/
def analyzeRun (env : ToolEnv) (files : List (List String))
    (fs : String → Option String) : String → Option String :=
  writeFile fs REPORT_FILE (dumpJson 2 (Json.obj (analyze_all_contracts env files)) 0)

/-- Formalization of the spec phrase "the file's parent directory name": the
next-to-last component of the path. Used only to compare the spec's wording
with what the code computes. -/
def specParentDirName (parts : List String) : String :=
  parts.getD (parts.length - 2) ""

/-- A concrete environment in which no tool can be launched, used to
instantiate closed statements. -/
def envFail : ToolEnv where
  solc := fun _ => .exn "solc missing"
  slither := fun _ => .exn "slither missing"
  loads := fun _ => .error "Expecting value: line 1 column 1 (char 0)"

/-- A concrete `json.loads` model that accepts exactly `"{}"`,
used to instantiate closed statements. -/
def loadsEmptyObj : String → Except String Json :=
  fun s => if s = "{}" then .ok (.obj []) else .error "Expecting value: line 1 column 1 (char 0)"

/-- Replacing the value at a key leaves the key sequence unchanged. -/
theorem dkeys_replace (d : List (String × Json)) (k : String) (v : Json) :
    dkeys (d.map (fun kv => if kv.1 == k then (k, v) else kv)) = dkeys d := by
  unfold dkeys
  rw [List.map_map]
  apply List.map_congr_left
  intro kv _
  by_cases hkv : kv.1 == k
  · simpa [Function.comp, hkv] using (eq_of_beq hkv).symm
  · simp [Function.comp, hkv]

/-- Membership in the keys after a dict assignment. -/
theorem mem_dkeys_dictInsert (d : List (String × Json)) (k : String) (v : Json)
    (q : String) :
    q ∈ dkeys (dictInsert d k v) ↔ q = k ∨ q ∈ dkeys d := by
  unfold dictInsert
  by_cases hc : d.any (fun kv => kv.1 == k)
  · have hk : k ∈ dkeys d := by
      rcases List.any_eq_true.mp hc with ⟨kv, hmem, hbeq⟩
      exact List.mem_map.mpr ⟨kv, hmem, eq_of_beq hbeq⟩
    rw [if_pos hc, dkeys_replace]
    constructor
    · exact Or.inr
    · rintro (rfl | hq)
      · exact hk
      · exact hq
  · rw [if_neg hc]
    unfold dkeys
    simp [or_comm]

/-- A dict assignment keeps the keys duplicate-free. -/
theorem nodup_dkeys_dictInsert (d : List (String × Json)) (k : String) (v : Json)
    (h : (dkeys d).Nodup) : (dkeys (dictInsert d k v)).Nodup := by
  unfold dictInsert
  by_cases hc : d.any (fun kv => kv.1 == k)
  · rwa [if_pos hc, dkeys_replace]
  · have hk : k ∉ dkeys d := by
      intro hmem
      rcases List.mem_map.mp hmem with ⟨kv, hkv, hfst⟩
      exact hc (List.any_eq_true.mpr ⟨kv, hkv, beq_iff_eq.mpr hfst⟩)
    rw [if_neg hc]
    unfold dkeys
    rw [List.map_append]
    refine List.nodup_append.mpr ⟨h, List.nodup_singleton k, ?_⟩
    intro a ha hak
    simp only [List.map_cons, List.map_nil, List.mem_singleton] at hak
    subst hak
    exact hk ha

/-- Every element of a dict after an assignment is the assigned pair or an
element that was already present. -/
theorem mem_dictInsert (d : List (String × Json)) (k : String) (v : Json)
    (kv : String × Json) (h : kv ∈ dictInsert d k v) : kv = (k, v) ∨ kv ∈ d := by
  unfold dictInsert at h
  by_cases hc : d.any (fun x => x.1 == k)
  · rw [if_pos hc] at h
    rcases List.mem_map.mp h with ⟨x, hx, hxeq⟩
    by_cases hxk : x.1 == k
    · rw [if_pos hxk] at hxeq
      exact Or.inl hxeq.symm
    · rw [if_neg hxk] at hxeq
      exact Or.inr (hxeq ▸ hx)
  · rw [if_neg hc] at h
    rcases List.mem_append.mp h with hx | hx
    · exact Or.inr hx
    · exact Or.inl (List.mem_singleton.mp hx)

/-- Keys of the aggregate built by folding the loop body: exactly the keys of
the accumulator together with the derived key of every non-skipped file. -/
theorem mem_dkeys_analyze_foldl (env : ToolEnv) (files : List (List String))
    (acc : List (String × Json)) (k : String) :
    k ∈ dkeys (files.foldl (analyzeStep env) acc) ↔
      k ∈ dkeys acc ∨ ∃ p ∈ files, ¬ p.length < 3 ∧ pyKey p = k := by
  induction files generalizing acc with
  | nil => simp
  | cons p rest ih =>
    rw [List.foldl_cons, ih]
    unfold analyzeStep
    by_cases hp : p.length < 3
    · rw [if_pos hp]
      simp only [List.mem_cons]
      constructor
      · rintro (h | ⟨q, hq, hq3, hk⟩)
        · exact Or.inl h
        · exact Or.inr ⟨q, Or.inr hq, hq3, hk⟩
      · rintro (h | ⟨q, (rfl | hq), hq3, hk⟩)
        · exact Or.inl h
        · exact absurd hp hq3
        · exact Or.inr ⟨q, hq, hq3, hk⟩
    · rw [if_neg hp]
      constructor
      · rintro (h | ⟨q, hq, hq3, hk⟩)
        · rcases (mem_dkeys_dictInsert acc (pyKey p) (mkEntry env p) k).mp h with rfl | h
          · exact Or.inr ⟨p, List.mem_cons_self p rest, hp, rfl⟩
          · exact Or.inl h
        · exact Or.inr ⟨q, List.mem_cons_of_mem p hq, hq3, hk⟩
      · rintro (h | ⟨q, hq, hq3, hk⟩)
        · exact Or.inl ((mem_dkeys_dictInsert acc (pyKey p) (mkEntry env p) k).mpr (Or.inr h))
        · rcases List.mem_cons.mp hq with rfl | hq
          · exact Or.inl ((mem_dkeys_dictInsert acc (pyKey q) (mkEntry env q) k).mpr (Or.inl hk.symm))
          · exact Or.inr ⟨q, hq, hq3, hk⟩

/-- Folding the loop body keeps the key sequence duplicate-free. -/
theorem nodup_dkeys_analyze_foldl (env : ToolEnv) (files : List (List String))
    (acc : List (String × Json)) (h : (dkeys acc).Nodup) :
    (dkeys (files.foldl (analyzeStep env) acc)).Nodup := by
  induction files generalizing acc with
  | nil => simpa using h
  | cons p rest ih =>
    rw [List.foldl_cons]
    apply ih
    unfold analyzeStep
    by_cases hp : p.length < 3
    · rwa [if_pos hp]
    · rw [if_neg hp]
      exact nodup_dkeys_dictInsert acc (pyKey p) (mkEntry env p) h

/-- Every entry of the aggregate built by folding the loop body comes from
the accumulator or is the key/value pair of some non-skipped file. -/
theorem mem_analyze_foldl (env : ToolEnv) (files : List (List String))
    (acc : List (String × Json)) (kv : String × Json)
    (h : kv ∈ files.foldl (analyzeStep env) acc) :
    kv ∈ acc ∨ ∃ p ∈ files, ¬ p.length < 3 ∧ kv = (pyKey p, mkEntry env p) := by
  induction files generalizing acc with
  | nil => exact Or.inl (by simpa using h)
  | cons p rest ih =>
    rw [List.foldl_cons] at h
    rcases ih (analyzeStep env acc p) h with hacc | ⟨q, hq, hq3, hkv⟩
    · unfold analyzeStep at hacc
      by_cases hp : p.length < 3
      · rw [if_pos hp] at hacc
        exact Or.inl hacc
      · rw [if_neg hp] at hacc
        rcases mem_dictInsert acc (pyKey p) (mkEntry env p) kv hacc with heq | hmem
        · exact Or.inr ⟨p, List.mem_cons_self p rest, hp, heq⟩
        · exact Or.inl hmem
    · exact Or.inr ⟨q, List.mem_cons_of_mem p hq, hq3, hkv⟩

/-- C2: for every solc invocation that launches, the returned result has
`success` true iff the subprocess exit code is zero; on exit code zero
`solc_output` is the captured stdout, and on a nonzero exit code it is the
captured stderr. -/
theorem solc_result_matches_exit (sol_file : String) (rc : Int) (so se : String) :
    (dget (run_solc_check sol_file (.ok rc so se)) "success" = some (.bool true) ↔ rc = 0) ∧
    (rc = 0 → dget (run_solc_check sol_file (.ok rc so se)) "solc_output" = some (.str so)) ∧
    (rc ≠ 0 → dget (run_solc_check sol_file (.ok rc so se)) "solc_output" = some (.str se)) := by
  by_cases h : rc = 0 <;> simp [run_solc_check, dget, List.find?, h]

/-- C2 witness at exit code 0. -/
theorem solc_result_matches_exit_witness :
    dget (run_solc_check "a.sol" (.ok 0 "out" "err")) "solc_output" = some (.str "out") :=
  (solc_result_matches_exit "a.sol" 0 "out" "err").2.1 rfl

/-- C3: for every slither invocation that launches and whose selected stream
parses as valid JSON, `success` equals `exit code == 0` and `slither_output`
is the parsed value; the parsed stream is stdout when stdout is non-empty,
otherwise stderr. -/
theorem slither_valid_json_result (loads : String → Except String Json)
    (sol_file : String) (rc : Int) (so se : String) (j : Json) :
    (so ≠ "" → loads so = .ok j →
      dget (run_slither_check loads sol_file (.ok rc so se)) "success" =
          some (.bool (decide (rc = 0))) ∧
      dget (run_slither_check loads sol_file (.ok rc so se)) "slither_output" = some j) ∧
    (so = "" → se ≠ "" → loads se = .ok j →
      dget (run_slither_check loads sol_file (.ok rc so se)) "success" =
          some (.bool (decide (rc = 0))) ∧
      dget (run_slither_check loads sol_file (.ok rc so se)) "slither_output" = some j) := by
  constructor
  · intro hso hl
    simp [run_slither_check, dget, List.find?, hso, hl]
  · intro hso hse hl
    simp [run_slither_check, dget, List.find?, hso, hse, hl]

/-- C3 witness: stdout `"{}"` parses to the empty object. -/
theorem slither_valid_json_result_witness :
    dget (run_slither_check loadsEmptyObj "a.sol" (.ok 1 "{}" "err")) "slither_output" =
      some (.obj []) :=
  ((slither_valid_json_result loadsEmptyObj "a.sol" 1 "{}" "err" (.obj [])).1
    (by decide) (by simp [loadsEmptyObj])).2

/-- C8: for every slither invocation that launches with empty stdout and
empty stderr, `slither_output` is the empty object, no error field is set,
`success` is still determined by the exit code, and the result does not
depend on the behavior of `json.loads` (no parse is attempted). -/
theorem slither_empty_streams (loads1 loads2 : String → Except String Json)
    (sol_file : String) (rc : Int) :
    dget (run_slither_check loads1 sol_file (.ok rc "" "")) "slither_output" =
        some (.obj []) ∧
    dget (run_slither_check loads1 sol_file (.ok rc "" "")) "error" = none ∧
    dget (run_slither_check loads1 sol_file (.ok rc "" "")) "success" =
        some (.bool (decide (rc = 0))) ∧
    run_slither_check loads1 sol_file (.ok rc "" "") =
      run_slither_check loads2 sol_file (.ok rc "" "") := by
  simp [run_slither_check, dget, List.find?]

/-- C8 witness at exit code 1. -/
theorem slither_empty_streams_witness :
    dget (run_slither_check loadsEmptyObj "a.sol" (.ok 1 "" "")) "slither_output" =
      some (.obj []) :=
  (slither_empty_streams loadsEmptyObj envFail.loads "a.sol" 1).1

/-- C9: every result returned by either check, on every branch including
launch failure, carries a `file` field equal to the path the check was
invoked with and a boolean `success` field. -/
theorem result_has_file_and_success (loads : String → Except String Json)
    (sol_file : String) (out : SubprocessOutcome) :
    dget (run_solc_check sol_file out) "file" = some (.str sol_file) ∧
    (∃ b, dget (run_solc_check sol_file out) "success" = some (.bool b)) ∧
    dget (run_slither_check loads sol_file out) "file" = some (.str sol_file) ∧
    (∃ b, dget (run_slither_check loads sol_file out) "success" = some (.bool b)) := by
  cases out with
  | exn msg => simp [run_solc_check, run_slither_check, dget, List.find?]
  | ok rc so se =>
    refine ⟨by simp [run_solc_check, dget, List.find?],
            ⟨decide (rc = 0), by simp [run_solc_check, dget, List.find?]⟩, ?_, ?_⟩
    all_goals
      by_cases hout : (if so = "" then se else so) = ""
    · simp [run_slither_check, dget, List.find?, hout]
    · rcases hl : loads (if so = "" then se else so) with msg | j <;>
        simp [run_slither_check, dget, List.find?, hout, hl]
    · exact ⟨decide (rc = 0), by simp [run_slither_check, dget, List.find?, hout]⟩
    · rcases hl : loads (if so = "" then se else so) with msg | j
      · exact ⟨false, by simp [run_slither_check, dget, List.find?, hout, hl]⟩
      · exact ⟨decide (rc = 0), by simp [run_slither_check, dget, List.find?, hout, hl]⟩

/-- C9 witness on a launch failure. -/
theorem result_has_file_and_success_witness :
    dget (run_solc_check "a.sol" (.exn "boom")) "file" = some (.str "a.sol") :=
  (result_has_file_and_success loadsEmptyObj "a.sol" (.exn "boom")).1

/-- C10: on the exception branch of either check (a launch failure, or for
slither a JSON parse failure on a non-empty selected stream), the result has
`success` false regardless of the exit code, carries an `error` field, and
has no output field (`solc_output` / `slither_output`). -/
theorem exception_branch_shape (loads : String → Except String Json)
    (sol_file msg : String) (rc : Int) (so se emsg : String)
    (hout : (if so = "" then se else so) ≠ "")
    (hparse : loads (if so = "" then se else so) = .error emsg) :
    (dget (run_solc_check sol_file (.exn msg)) "success" = some (.bool false) ∧
     dget (run_solc_check sol_file (.exn msg)) "error" = some (.str msg) ∧
     dget (run_solc_check sol_file (.exn msg)) "solc_output" = none) ∧
    (dget (run_slither_check loads sol_file (.exn msg)) "success" = some (.bool false) ∧
     dget (run_slither_check loads sol_file (.exn msg)) "error" = some (.str msg) ∧
     dget (run_slither_check loads sol_file (.exn msg)) "slither_output" = none) ∧
    (dget (run_slither_check loads sol_file (.ok rc so se)) "success" = some (.bool false) ∧
     dget (run_slither_check loads sol_file (.ok rc so se)) "error" = some (.str emsg) ∧
     dget (run_slither_check loads sol_file (.ok rc so se)) "slither_output" = none) := by
  refine ⟨by simp [run_solc_check, dget, List.find?],
          by simp [run_slither_check, dget, List.find?], ?_⟩
  simp [run_slither_check, dget, List.find?, hout, hparse]

/-- C10 witness: exit code 0 with non-JSON stdout still yields a failed
result with an error field and no output field. -/
theorem exception_branch_shape_witness :
    dget (run_slither_check loadsEmptyObj "a.sol" (.ok 0 "not json" "")) "success" =
      some (.bool false) :=
  ((exception_branch_shape loadsEmptyObj "a.sol" "boom" 0 "not json" ""
    "Expecting value: line 1 column 1 (char 0)" (by decide)
    (by simp [loadsEmptyObj])).2.2).1

/-- C1 (counterexample): for the discovered file
`contracts-evaluation/modelA/sub/foo.sol` the aggregate key is
`"modelA/foo"` (the path's component at index 1 and the stem), while the
parent directory name followed by `/` and the stem is `"sub/foo"`; the two
differ, so the claim as stated fails on nested files. -/
theorem key_not_parent_dir_counterexample :
    (analyze_all_contracts envFail
        [["contracts-evaluation", "modelA", "sub", "foo.sol"]]).map Prod.fst =
      ["modelA/foo"] ∧
    specParentDirName ["contracts-evaluation", "modelA", "sub", "foo.sol"] ++ "/" ++
        stem "foo.sol" = "sub/foo" ∧
    ("modelA/foo" : String) ≠ "sub/foo" := by
  refine ⟨by rfl, by rfl, by decide⟩

/-- C1 (amended): for every discovered file that is not skipped, the key
under which its results are stored is the path's component at index 1 (the
directory directly under the analysis root) followed by `/` and the filename
without its extension; this equals the parent directory name followed by `/`
and the stem exactly when the path has exactly 3 components. -/
theorem key_is_second_component (env : ToolEnv) (files : List (List String))
    (p : List String) (hmem : p ∈ files) (h3 : ¬ p.length < 3) :
    pyKey p ∈ dkeys (analyze_all_contracts env files) ∧
    (p.length = 3 →
      pyKey p = specParentDirName p ++ "/" ++ stem (p.getLastD "")) := by
  constructor
  · rw [analyze_all_contracts, mem_dkeys_analyze_foldl]
    exact Or.inr ⟨p, hmem, h3, rfl⟩
  · intro hlen
    rcases List.length_eq_three.mp hlen with ⟨a, b, c, rfl⟩
    rfl

/-- C1 (amended) witness at a depth-3 path. -/
theorem key_is_second_component_witness :
    pyKey ["contracts-evaluation", "modelA", "foo.sol"] ∈
      dkeys (analyze_all_contracts envFail
        [["contracts-evaluation", "modelA", "foo.sol"]]) :=
  (key_is_second_component envFail _ _ (List.mem_singleton.mpr rfl) (by decide)).1

/-- C4: for every slither invocation whose selected non-empty output text is
not valid JSON, the result records the parse failure message under `error`
instead of raising, and the keys of every other non-skipped file in the batch
still reach the aggregate. -/
theorem slither_parse_failure_continues (loads : String → Except String Json)
    (sol_file : String) (rc : Int) (so se emsg : String) (env : ToolEnv)
    (files : List (List String)) (p q : List String)
    (hout : (if so = "" then se else so) ≠ "")
    (hparse : loads (if so = "" then se else so) = .error emsg)
    (hq : q ∈ files) (hq3 : ¬ q.length < 3) :
    dget (run_slither_check loads sol_file (.ok rc so se)) "error" =
        some (.str emsg) ∧
    pyKey q ∈ dkeys (analyze_all_contracts env (p :: files)) := by
  constructor
  · simp [run_slither_check, dget, List.find?, hout, hparse]
  · rw [analyze_all_contracts, mem_dkeys_analyze_foldl]
    exact Or.inr ⟨q, List.mem_cons_of_mem p hq, hq3, rfl⟩

/-- C4 witness: a non-JSON stdout is recorded as an error and a later file is
still keyed in the aggregate. -/
theorem slither_parse_failure_continues_witness :
    dget (run_slither_check loadsEmptyObj "a.sol" (.ok 0 "not json" ""))
        "error" = some (.str "Expecting value: line 1 column 1 (char 0)") ∧
    pyKey ["contracts-evaluation", "modelB", "bar.sol"] ∈
      dkeys (analyze_all_contracts envFail
        [["contracts-evaluation", "modelA", "foo.sol"],
         ["contracts-evaluation", "modelB", "bar.sol"]]) :=
  slither_parse_failure_continues loadsEmptyObj "a.sol" 0 "not json" ""
    "Expecting value: line 1 column 1 (char 0)" envFail
    [["contracts-evaluation", "modelB", "bar.sol"]]
    ["contracts-evaluation", "modelA", "foo.sol"]
    ["contracts-evaluation", "modelB", "bar.sol"]
    (by decide) (by simp [loadsEmptyObj]) (List.mem_singleton.mpr rfl) (by decide)

/-- C5: a tool invocation that fails to launch yields a result with
`success` false and `error` equal to the exception's message, for both
checks; no exception escapes per-file processing, and every other non-skipped
file of the batch still reaches the aggregate. -/
theorem launch_failure_recorded (loads : String → Except String Json)
    (sol_file msg : String) (env : ToolEnv) (files : List (List String))
    (p q : List String) (hq : q ∈ files) (hq3 : ¬ q.length < 3) :
    dget (run_solc_check sol_file (.exn msg)) "success" = some (.bool false) ∧
    dget (run_solc_check sol_file (.exn msg)) "error" = some (.str msg) ∧
    dget (run_slither_check loads sol_file (.exn msg)) "success" = some (.bool false) ∧
    dget (run_slither_check loads sol_file (.exn msg)) "error" = some (.str msg) ∧
    pyKey q ∈ dkeys (analyze_all_contracts env (p :: files)) := by
  refine ⟨by simp [run_solc_check, dget, List.find?],
          by simp [run_solc_check, dget, List.find?],
          by simp [run_slither_check, dget, List.find?],
          by simp [run_slither_check, dget, List.find?], ?_⟩
  rw [analyze_all_contracts, mem_dkeys_analyze_foldl]
  exact Or.inr ⟨q, List.mem_cons_of_mem p hq, hq3, rfl⟩

/-- C5 witness: a missing binary is recorded and the batch continues. -/
theorem launch_failure_recorded_witness :
    dget (run_solc_check "a.sol" (.exn "No such file or directory: 'solc'"))
        "error" = some (.str "No such file or directory: 'solc'") :=
  (launch_failure_recorded loadsEmptyObj "a.sol"
    "No such file or directory: 'solc'" envFail
    [["contracts-evaluation", "modelB", "bar.sol"]]
    ["contracts-evaluation", "modelA", "foo.sol"]
    ["contracts-evaluation", "modelB", "bar.sol"]
    (List.mem_singleton.mpr rfl) (by decide)).2.1

/-- C6: files with fewer than 3 path components contribute no entry; the
aggregate's keys are duplicate-free and are exactly the derived keys of the
non-skipped files, and every entry is the key together with the solc and
slither results of a non-skipped file with that key. -/
theorem aggregate_exactly_valid_keys (env : ToolEnv) (files : List (List String)) :
    (dkeys (analyze_all_contracts env files)).Nodup ∧
    (∀ k, k ∈ dkeys (analyze_all_contracts env files) ↔
      ∃ p ∈ files, ¬ p.length < 3 ∧ pyKey p = k) ∧
    (∀ kv ∈ analyze_all_contracts env files,
      ∃ p ∈ files, ¬ p.length < 3 ∧ kv = (pyKey p, mkEntry env p)) := by
  refine ⟨nodup_dkeys_analyze_foldl env files [] (by simp [dkeys]), ?_, ?_⟩
  · intro k
    rw [analyze_all_contracts, mem_dkeys_analyze_foldl]
    simp [dkeys]
  · intro kv h
    rcases mem_analyze_foldl env files [] kv h with hacc | hres
    · exact absurd hacc (List.not_mem_nil kv)
    · exact hres

/-- C6 witness: with one shallow and one deep file, the aggregate key list is
exactly the deep file's key. -/
theorem aggregate_exactly_valid_keys_witness :
    (dkeys (analyze_all_contracts envFail
      [["contracts-evaluation", "shallow.sol"],
       ["contracts-evaluation", "modelA", "foo.sol"]])).Nodup :=
  (aggregate_exactly_valid_keys envFail
    [["contracts-evaluation", "shallow.sol"],
     ["contracts-evaluation", "modelA", "foo.sol"]]).1

/-- C7: the report file's contents after a run are the current aggregate
serialized with indent 2; running the batch a second time produces a
filesystem independent of what the first run wrote, so the previous report is
overwritten rather than merged. -/
theorem report_overwritten_each_run (env1 env2 : ToolEnv)
    (files1 files2 : List (List String)) (fs : String → Option String) :
    analyzeRun env2 files2 (analyzeRun env1 files1 fs) REPORT_FILE =
      some (dumpJson 2 (Json.obj (analyze_all_contracts env2 files2)) 0) ∧
    analyzeRun env2 files2 (analyzeRun env1 files1 fs) = analyzeRun env2 files2 fs := by
  constructor
  · simp [analyzeRun, writeFile]
  · funext q
    by_cases hq : q = REPORT_FILE <;> simp [analyzeRun, writeFile, hq]

/-- C7 witness: after two runs on an initially empty filesystem, the report
holds the second run's serialized aggregate. -/
theorem report_overwritten_each_run_witness :
    analyzeRun envFail [] (analyzeRun envFail
        [["contracts-evaluation", "modelA", "foo.sol"]] (fun _ => none))
      REPORT_FILE = some "{}" :=
  (report_overwritten_each_run envFail envFail
    [["contracts-evaluation", "modelA", "foo.sol"]] [] (fun _ => none)).1
